import Mathlib

/-! Shallow embedding of the retrieval-augmented answer pipeline in
`src/modelscope/app.py` (LangChain-ChatGLM-Webui), together with theorems
settling the specification claims about it.  External collaborators
(file parsing, FAISS retrieval, the ChatGLM backend) are modelled as an
explicit environment of functions; the observable side effects of one run
(weight loading, file loading, index building, LLM invocation) are
recorded in an event trace. -/

namespace LangChainChatGLM

/-- A text element produced by the document loader
(app.py:33-34, `UnstructuredFileLoader(filepath, mode="elements").load()`). -/
structure Doc where
  text : String

/-- One conversation turn: a `(query, answer)` pair. -/
abbrev Turn := String × String

/-- Conversation history: ordered list of turns, oldest first. -/
abbrev History := List Turn

/-- The gradio file handle passed to `predict`; only its `.name` (the path)
is used (app.py:92-93). -/
structure FileObj where
  name : String

/-- The embeddings object built in `init_knowledge_vector_store`
(app.py:28-31): it carries the resolved pretrained-model identifier. -/
structure Embeddings where
  model_name : String

/-- The FAISS vector store (app.py:36, `FAISS.from_documents(docs,
embeddings)`): it retains the loaded documents and the embeddings used to
index them. -/
structure VectorStore where
  docs : List Doc
  embeddings : Embeddings

/-- The data handed to the ChatGLM client for a single generation: the
composed prompt plus the fields assigned on the client in
`get_knowledge_based_answer` (app.py:60-64). -/
structure LLMCall where
  prompt : String
  history : History
  temperature : Float
  top_p : Float

/-- Observable side effects of one pipeline run. -/
inductive Event where
  /-- Loading of the embedding-model weights into memory (app.py:28-31,
  the construction of `HuggingFaceEmbeddings` and
  `sentence_transformers.SentenceTransformer(model_name, device)`). -/
  | loadEmbeddingWeights (model_name : String)
  /-- Reading and parsing the uploaded file (app.py:33-34). -/
  | loadFile (path : String)
  /-- Embedding every chunk and building the index (app.py:36,
  `FAISS.from_documents(docs, embeddings)`). -/
  | buildIndex (model_name : String) (path : String)
  /-- One language-model generation (app.py:73,
  the call of the knowledge chain on the query). -/
  | llmGenerate (call : LLMCall)

/-- External collaborators of the pipeline, out of scope of the repository
code itself: the file parser, the similarity retriever and the ChatGLM
backend.  They are parameters of every pipeline function. -/
structure Env where
  loadFile : String → List Doc
  retrieve : VectorStore → String → Nat → List Doc
  generate : LLMCall → String

/-- Failures of the pipeline.  `UnknownModelError` models the Python
`KeyError` raised at app.py:29 by the subscript
`embedding_model_dict[embedding_model]` when the key is missing; the
specification's error taxonomy names this failure `UnknownModelError`. -/
inductive PipelineError where
  | UnknownModelError (key : String)

/-- The fixed embedding-model catalog (app.py:19-23). -/
def embedding_model_dict : List (String × String) :=
  [("ernie-tiny", "nghuyong/ernie-3.0-nano-zh"),
   ("ernie-base", "nghuyong/ernie-3.0-xbase-zh"),
   ("text2vec-base", "shibing624/text2vec-base-chinese")]

/-- Embedding of `init_knowledge_vector_store` (app.py:26-37).  An unknown
embedding-model key fails the dictionary subscript (modelled as
`UnknownModelError`); on success the function loads the embedding weights
(app.py:28-31), loads the file (app.py:33-34) and builds the FAISS index
(app.py:36), recording each effect in the returned trace. -/
def init_knowledge_vector_store (env : Env) (embedding_model filepath : String) :
    Except PipelineError (VectorStore × List Event) :=
  match List.lookup embedding_model embedding_model_dict with
  | none => .error (.UnknownModelError embedding_model)
  | some model_name =>
      .ok ({ docs := env.loadFile filepath,
             embeddings := { model_name := model_name } },
           [Event.loadEmbeddingWeights model_name,
            Event.loadFile filepath,
            Event.buildIndex model_name filepath])

/-- The literal prompt template constant of `get_knowledge_based_answer`
(app.py:49-56), with its two `PromptTemplate` input variables. -/
def prompt_template : String :=
  "基于以下已知信息，简洁和专业的来回答用户的问题。\n        如果无法从中得到答案，请说 \"根据已知信息无法回答该问题\" 或 \"没有提供足够的相关信息\"，不允许在答案中添加编造成分，答案请使用中文。\n\n        已知内容:\n        {context}\n\n        问题:\n        {question}"

/-- The fixed template text standing before the context injection point. -/
def prompt_before_context : String :=
  "基于以下已知信息，简洁和专业的来回答用户的问题。\n        如果无法从中得到答案，请说 \"根据已知信息无法回答该问题\" 或 \"没有提供足够的相关信息\"，不允许在答案中添加编造成分，答案请使用中文。\n\n        已知内容:\n        "

/-- The fixed template text standing between the context and the question
injection points. -/
def prompt_between : String := "\n\n        问题:\n        "

/-- Rendering of the prompt (app.py:57-58, `PromptTemplate(template=
prompt_template, input_variables=["context", "question"])`, applied by the
RetrievalQA chain): Python string formatting substitutes the concatenated
context and the raw question into the two placeholders of the template. -/
def composePrompt (context question : String) : String :=
  prompt_before_context ++ context ++ prompt_between ++ question

/-- The generation request assembled by `get_knowledge_based_answer`
(app.py:60-73): the RetrievalQA chain retrieves the top-K documents, joins
their text and renders the prompt; the ChatGLM client carries the truncated
history (app.py:62, `chat_history[-history_len:] if history_len > 0 else []`,
where the Python slice `l[-n:]` for `n > 0` is `l.drop (l.length - n)`) and
the sampling parameters (app.py:63-64). -/
def llmCallOf (env : Env) (query : String) (vector_store : VectorStore)
    (VECTOR_SEARCH_TOP_K : Nat) (chat_history : History) (history_len : Nat)
    (temperature top_p : Float) : LLMCall :=
  { prompt := composePrompt
      (String.intercalate "\n\n"
        ((env.retrieve vector_store query VECTOR_SEARCH_TOP_K).map Doc.text))
      query,
    history :=
      if history_len > 0 then
        chat_history.drop (chat_history.length - history_len)
      else [],
    temperature := temperature,
    top_p := top_p }

/-- Embedding of `get_knowledge_based_answer` (app.py:40-75): returns the
generated answer together with the trace of the single LLM invocation. -/
def get_knowledge_based_answer (env : Env) (query : String)
    (vector_store : VectorStore) (VECTOR_SEARCH_TOP_K : Nat)
    (chat_history : History) (history_len : Nat)
    (temperature top_p : Float) : String × List Event :=
  (env.generate (llmCallOf env query vector_store VECTOR_SEARCH_TOP_K
      chat_history history_len temperature top_p),
   [Event.llmGenerate (llmCallOf env query vector_store VECTOR_SEARCH_TOP_K
      chat_history history_len temperature top_p)])

/-- Embedding of `clear_session` (app.py:78-79): it returns `('', None)`. -/
def clear_session : String × Option History := ("", none)

/-- Gradio wiring of the clear button (app.py:174-177): the click handler
takes no inputs and overwrites the chatbot transcript and the session state
with the two components of `clear_session`, whatever they held before. -/
def clearClick (_chatbot : String) (_state : Option History) :
    String × Option History :=
  clear_session

/-- Embedding of `predict` (app.py:82-106): normalise a `None` history to
`[]` (app.py:90-91), rebuild the vector store from the uploaded file
(app.py:92-93), obtain the knowledge-based answer (app.py:95-103), append
the new turn (app.py:105) and return `('', history, history)` (app.py:106).
The trace concatenates the index-construction events with the LLM
invocation. -/
def predict (env : Env) (input embedding_model : String) (file_obj : FileObj)
    (VECTOR_SEARCH_TOP_K history_len : Nat) (temperature top_p : Float)
    (history : Option History) :
    Except PipelineError ((String × History × History) × List Event) :=
  let history0 : History := match history with | none => [] | some h => h
  match init_knowledge_vector_store env embedding_model file_obj.name with
  | .error e => .error e
  | .ok (vector_store, ev1) =>
      let res := get_knowledge_based_answer env input vector_store
        VECTOR_SEARCH_TOP_K history0 history_len temperature top_p
      let new_history := history0 ++ [(input, res.1)]
      .ok (("", new_history, new_history), ev1 ++ res.2)

/-- Recogniser for embedding-weight-load events. -/
def Event.isWeightLoad : Event → Bool
  | .loadEmbeddingWeights _ => true
  | _ => false

/-- Number of embedding-weight loads recorded in a trace. -/
def countWeightLoads (trace : List Event) : Nat :=
  (trace.filter Event.isWeightLoad).length

/-- A concrete environment used to exercise the pipeline on closed inputs:
the loader yields one text element, the retriever returns the first k
stored documents, the backend returns a fixed answer. -/
def env0 : Env :=
  { loadFile := fun _ => [{ text := "The capital of France is Paris." }],
    retrieve := fun vs _ k => vs.docs.take k,
    generate := fun _ => "demo-answer" }

/-- The uploaded file of the concrete runs. -/
def fileA : FileObj := { name := "kb.txt" }

/-- The vector store that `env0` produces for `ernie-tiny` and `kb.txt`. -/
def vsA : VectorStore :=
  { docs := [{ text := "The capital of France is Paris." }],
    embeddings := { model_name := "nghuyong/ernie-3.0-nano-zh" } }

/-- The index-construction trace of `env0` for `ernie-tiny` and `kb.txt`. -/
def evInitA : List Event :=
  [Event.loadEmbeddingWeights "nghuyong/ernie-3.0-nano-zh",
   Event.loadFile "kb.txt",
   Event.buildIndex "nghuyong/ernie-3.0-nano-zh" "kb.txt"]

/-- A concrete four-turn history. -/
def histA : History := [("a1", "b1"), ("a2", "b2"), ("a3", "b3"), ("a4", "b4")]

/-- First call of a two-call session against `env0` (fresh session,
`history = None`). -/
def outA : (String × History × History) × List Event :=
  (predict env0 "q1" "ernie-tiny" fileA 6 3 0.01 0.9 none).toOption.getD
    (("", [], []), [])

/-- Second call of the session, continuing with the history returned by the
first call. -/
def outB : (String × History × History) × List Event :=
  (predict env0 "q2" "ernie-tiny" fileA 6 3 0.01 0.9
    (some outA.1.2.2)).toOption.getD (("", [], []), [])

/-- The full event trace of the two-call process. -/
def processTrace : List Event := outA.2 ++ outB.2

/-- Helper: full characterisation of a successful `predict` call whose
embedding-model key resolves in the catalog. -/
theorem predict_ok_eq (env : Env) (input em : String) (fo : FileObj)
    (k n : Nat) (t p : Float) (h0 : Option History) (mn : String)
    (hm : List.lookup em embedding_model_dict = some mn) :
    predict env input em fo k n t p h0
      = .ok ((("",
          (match h0 with | none => [] | some h => h)
            ++ [(input, env.generate (llmCallOf env input
                  { docs := env.loadFile fo.name,
                    embeddings := { model_name := mn } }
                  k (match h0 with | none => [] | some h => h) n t p))],
          (match h0 with | none => [] | some h => h)
            ++ [(input, env.generate (llmCallOf env input
                  { docs := env.loadFile fo.name,
                    embeddings := { model_name := mn } }
                  k (match h0 with | none => [] | some h => h) n t p))])),
         [Event.loadEmbeddingWeights mn, Event.loadFile fo.name,
          Event.buildIndex mn fo.name,
          Event.llmGenerate (llmCallOf env input
            { docs := env.loadFile fo.name,
              embeddings := { model_name := mn } }
            k (match h0 with | none => [] | some h => h) n t p)]) := by
  simp [predict, init_knowledge_vector_store, hm, get_knowledge_based_answer]

/-- Claim C1: for every call of the answer pipeline with history of length H
and history_len = N, the language-model client receives exactly the
min(H, N) most recent turns of the history in their original order (a
suffix of length min(H, N)); history_len = 0 yields an empty history. -/
theorem history_truncation_sent (env : Env) (query : String)
    (vs : VectorStore) (k : Nat) (l : History) (n : Nat) (t p : Float) :
    (get_knowledge_based_answer env query vs k l n t p).2
        = [Event.llmGenerate (llmCallOf env query vs k l n t p)]
    ∧ (0 < n → (llmCallOf env query vs k l n t p).history <:+ l
        ∧ (llmCallOf env query vs k l n t p).history.length = min l.length n)
    ∧ (n = 0 → (llmCallOf env query vs k l n t p).history = []) := by
  refine ⟨rfl, ?_, ?_⟩
  · intro hn
    have hh : (llmCallOf env query vs k l n t p).history
        = l.drop (l.length - n) := by
      simp [llmCallOf, hn]
    rw [hh]
    refine ⟨List.drop_suffix _ _, ?_⟩
    rw [List.length_drop]
    omega
  · intro hn
    simp [llmCallOf, hn]

/-- Witness for C1 at a concrete four-turn history with history_len = 3. -/
theorem history_truncation_sent_witness :
    0 < 3
    ∧ ((llmCallOf env0 "q" vsA 6 histA 3 0.01 0.9).history <:+ histA
       ∧ (llmCallOf env0 "q" vsA 6 histA 3 0.01 0.9).history.length
           = min histA.length 3) :=
  ⟨by decide,
   (history_truncation_sent env0 "q" vsA 6 histA 3 0.01 0.9).2.1 (by decide)⟩

/-- Claim C2: a `predict` call with query q that obtains answer a from the
pipeline returns, in both its transcript and its state slot, the input
history with the single turn (q, a) appended at the end (so no existing
turn is removed, modified or reordered), where a is the answer generated by
the language-model client; a reaches the caller as the last turn of the
returned transcript. -/
theorem predict_appends_turn (env : Env) (input em : String) (fo : FileObj)
    (k n : Nat) (t p : Float) (history : History) (vs : VectorStore)
    (ev1 : List Event)
    (h : init_knowledge_vector_store env em fo.name = .ok (vs, ev1)) :
    predict env input em fo k n t p (some history)
      = .ok (("",
              history ++ [(input, env.generate
                (llmCallOf env input vs k history n t p))],
              history ++ [(input, env.generate
                (llmCallOf env input vs k history n t p))]),
             ev1 ++ [Event.llmGenerate
               (llmCallOf env input vs k history n t p)]) := by
  simp [predict, h, get_knowledge_based_answer]

/-- Witness for C2: a concrete call appends exactly one turn to a one-turn
history. -/
theorem predict_appends_turn_witness :
    init_knowledge_vector_store env0 "ernie-tiny" "kb.txt" = .ok (vsA, evInitA)
    ∧ predict env0 "q" "ernie-tiny" fileA 6 3 0.01 0.9 (some [("x", "y")])
        = .ok (("",
                [("x", "y"), ("q", "demo-answer")],
                [("x", "y"), ("q", "demo-answer")]),
               evInitA ++ [Event.llmGenerate
                 (llmCallOf env0 "q" vsA 6 [("x", "y")] 3 0.01 0.9)]) :=
  ⟨rfl, predict_appends_turn env0 "q" "ernie-tiny" fileA 6 3 0.01 0.9
    [("x", "y")] vsA evInitA rfl⟩

/-- Claim C3: every successful `predict` call builds a fresh vector index
from the uploaded file — its trace is exactly one weight load, one file
load and one index build for this call's own embedding model and file,
followed by the LLM invocation; `predict` has no input through which an
index could be reused across calls. -/
theorem fresh_index_every_call (env : Env) (input em : String) (fo : FileObj)
    (k n : Nat) (t p : Float) (h0 : Option History) (mn : String)
    (hm : List.lookup em embedding_model_dict = some mn)
    (r : String × History × History) (ev : List Event)
    (hp : predict env input em fo k n t p h0 = .ok (r, ev)) :
    ∃ c, ev = [Event.loadEmbeddingWeights mn, Event.loadFile fo.name,
               Event.buildIndex mn fo.name, Event.llmGenerate c] := by
  rw [predict_ok_eq env input em fo k n t p h0 mn hm] at hp
  exact ⟨_, (congrArg Prod.snd (Except.ok.inj hp)).symm⟩

/-- Witness for C3: the first concrete call's trace is exactly one
weight-load, file-load and index-build for its own model and file plus one
generation. -/
theorem fresh_index_every_call_witness :
    List.lookup "ernie-tiny" embedding_model_dict
      = some "nghuyong/ernie-3.0-nano-zh"
    ∧ predict env0 "q1" "ernie-tiny" fileA 6 3 0.01 0.9 none
        = .ok (outA.1, outA.2)
    ∧ ∃ c, outA.2 = [Event.loadEmbeddingWeights "nghuyong/ernie-3.0-nano-zh",
                     Event.loadFile "kb.txt",
                     Event.buildIndex "nghuyong/ernie-3.0-nano-zh" "kb.txt",
                     Event.llmGenerate c] :=
  ⟨by decide, rfl,
   fresh_index_every_call env0 "q1" "ernie-tiny" fileA 6 3 0.01 0.9 none
     "nghuyong/ernie-3.0-nano-zh" (by decide) outA.1 outA.2 rfl⟩

set_option maxRecDepth 8192 in
/-- Claim C4: the prompt handed to the language model is produced from the
one fixed template with exactly two injection points — the template literal
decomposes as fixed text, the context slot, fixed text, the question slot —
and for every retrieved context and question the composed prompt is that
fixed text around the concatenated context and the raw question; the fixed
part carries the answer-only-from-the-given-information instruction and the
state-inability-rather-than-fabricate instruction. -/
theorem prompt_fixed_template (env : Env) (query : String) (vs : VectorStore)
    (k : Nat) (l : History) (n : Nat) (t p : Float) :
    (llmCallOf env query vs k l n t p).prompt
      = prompt_before_context
        ++ String.intercalate "\n\n" ((env.retrieve vs query k).map Doc.text)
        ++ prompt_between ++ query
    ∧ prompt_template
      = prompt_before_context ++ "{context}" ++ prompt_between ++ "{question}"
    ∧ ("基于以下已知信息").data <:+: prompt_before_context.data
    ∧ ("根据已知信息无法回答该问题").data <:+: prompt_before_context.data
    ∧ ("不允许在答案中添加编造成分").data <:+: prompt_before_context.data :=
  ⟨rfl, by decide, by decide, by decide, by decide⟩

/-- Claim C5: for an embedding-model key outside the fixed catalog, building
the knowledge vector store fails with `UnknownModelError` and the whole
`predict` request fails with that same error — no partial answer and no
history update is produced. -/
theorem unknown_model_error (env : Env) (input em : String) (fo : FileObj)
    (k n : Nat) (t p : Float) (h0 : Option History)
    (hm : em ∉ ["ernie-tiny", "ernie-base", "text2vec-base"]) :
    init_knowledge_vector_store env em fo.name
      = .error (.UnknownModelError em)
    ∧ predict env input em fo k n t p h0
      = .error (.UnknownModelError em) := by
  simp only [List.mem_cons, List.not_mem_nil, or_false, not_or] at hm
  obtain ⟨h1, h2, h3⟩ := hm
  have hl : List.lookup em embedding_model_dict = none := by
    simp [embedding_model_dict, List.lookup,
      beq_eq_false_iff_ne.mpr h1, beq_eq_false_iff_ne.mpr h2,
      beq_eq_false_iff_ne.mpr h3]
  have hi : init_knowledge_vector_store env em fo.name
      = .error (.UnknownModelError em) := by
    simp [init_knowledge_vector_store, hl]
  exact ⟨hi, by simp [predict, hi]⟩

/-- Witness for C5 at the concrete unknown key "bert-base". -/
theorem unknown_model_error_witness :
    "bert-base" ∉ ["ernie-tiny", "ernie-base", "text2vec-base"]
    ∧ (init_knowledge_vector_store env0 "bert-base" "kb.txt"
         = .error (.UnknownModelError "bert-base")
       ∧ predict env0 "q" "bert-base" fileA 6 3 0.01 0.9 none
         = .error (.UnknownModelError "bert-base")) :=
  ⟨by decide,
   unknown_model_error env0 "q" "bert-base" fileA 6 3 0.01 0.9 none
     (by decide)⟩

/-- Claim C6: whatever the prior chatbot transcript and session state, the
clear-session click yields the empty displayed transcript and the cleared
state slot, and a subsequent `predict` call on the cleared state behaves
exactly as on the empty history. -/
theorem clear_session_resets (chatbot : String) (state : Option History)
    (env : Env) (input em : String) (fo : FileObj) (k n : Nat)
    (t p : Float) :
    clearClick chatbot state = ("", none)
    ∧ (clearClick chatbot state).1.length = 0
    ∧ predict env input em fo k n t p (clearClick chatbot state).2
        = predict env input em fo k n t p (some []) :=
  ⟨rfl, rfl, rfl⟩

/-- Counterexample to claim C7 as stated: in a concrete two-call process,
each of the two `predict` calls loads the embedding-model weights, so the
weights are loaded twice in the process — not at most once — and the call
after the first does reload them. -/
theorem weights_reloaded_second_call :
    countWeightLoads outA.2 = 1
    ∧ countWeightLoads outB.2 = 1
    ∧ countWeightLoads processTrace = 2
    ∧ ¬ countWeightLoads processTrace ≤ 1 := by decide

/-- Claim C7 as amended: the embedding-model weights are loaded anew on
every pipeline call — each successful `predict` call records exactly one
weight load, so a process serving n calls loads the weights n times; no
caching or reuse of loaded weights across calls exists in the code. -/
theorem weights_loaded_every_call (env : Env) (input em : String)
    (fo : FileObj) (k n : Nat) (t p : Float) (h0 : Option History)
    (mn : String)
    (hm : List.lookup em embedding_model_dict = some mn)
    (r : String × History × History) (ev : List Event)
    (hp : predict env input em fo k n t p h0 = .ok (r, ev)) :
    countWeightLoads ev = 1 := by
  rw [predict_ok_eq env input em fo k n t p h0 mn hm] at hp
  have h2 := congrArg (fun x => countWeightLoads x.2) (Except.ok.inj hp)
  exact h2.symm.trans rfl

/-- Witness for the amended C7: the second concrete call records exactly one
weight load of its own. -/
theorem weights_loaded_every_call_witness :
    List.lookup "ernie-tiny" embedding_model_dict
      = some "nghuyong/ernie-3.0-nano-zh"
    ∧ predict env0 "q2" "ernie-tiny" fileA 6 3 0.01 0.9 (some outA.1.2.2)
        = .ok (outB.1, outB.2)
    ∧ countWeightLoads outB.2 = 1 :=
  ⟨by decide, rfl,
   weights_loaded_every_call env0 "q2" "ernie-tiny" fileA 6 3 0.01 0.9
     (some outA.1.2.2) "nghuyong/ernie-3.0-nano-zh" (by decide)
     outB.1 outB.2 rfl⟩

/-- Claim C8: the sampling configuration supplied by the caller is passed
through verbatim — the call record handed to the language-model client
carries exactly the caller's temperature and top_p, and a successful
`predict` call with arguments t, p records the LLM invocation whose call
carries those same t, p. -/
theorem sampling_passthrough (env : Env) (input em : String) (fo : FileObj)
    (k n : Nat) (t p : Float) (history : History) (vs : VectorStore)
    (ev1 : List Event)
    (h : init_knowledge_vector_store env em fo.name = .ok (vs, ev1)) :
    (llmCallOf env input vs k history n t p).temperature = t
    ∧ (llmCallOf env input vs k history n t p).top_p = p
    ∧ predict env input em fo k n t p (some history)
        = .ok (("",
                history ++ [(input, env.generate
                  (llmCallOf env input vs k history n t p))],
                history ++ [(input, env.generate
                  (llmCallOf env input vs k history n t p))]),
               ev1 ++ [Event.llmGenerate
                 (llmCallOf env input vs k history n t p)]) :=
  ⟨rfl, rfl, by simp [predict, h, get_knowledge_based_answer]⟩

/-- Witness for C8 at concrete temperature 0.33 and top_p 0.77. -/
theorem sampling_passthrough_witness :
    init_knowledge_vector_store env0 "ernie-tiny" "kb.txt" = .ok (vsA, evInitA)
    ∧ ((llmCallOf env0 "q" vsA 6 [] 3 0.33 0.77).temperature = 0.33
       ∧ (llmCallOf env0 "q" vsA 6 [] 3 0.33 0.77).top_p = 0.77
       ∧ predict env0 "q" "ernie-tiny" fileA 6 3 0.33 0.77 (some [])
           = .ok (("", [("q", "demo-answer")], [("q", "demo-answer")]),
                  evInitA ++ [Event.llmGenerate
                    (llmCallOf env0 "q" vsA 6 [] 3 0.33 0.77)])) :=
  ⟨rfl, sampling_passthrough env0 "q" "ernie-tiny" fileA 6 3 0.33 0.77 []
    vsA evInitA rfl⟩

/-- Claim C9: a `predict` call with history = None behaves exactly as with
the empty history: the two calls are equal outright, the language-model
client receives no prior turns, and on success the returned history is the
single new turn. -/
theorem none_history_as_empty (env : Env) (input em : String) (fo : FileObj)
    (k n : Nat) (t p : Float) :
    predict env input em fo k n t p none
      = predict env input em fo k n t p (some [])
    ∧ ∀ vs ev1, init_knowledge_vector_store env em fo.name = .ok (vs, ev1) →
        (llmCallOf env input vs k [] n t p).history = []
        ∧ predict env input em fo k n t p none
            = .ok (("",
                    [(input, env.generate (llmCallOf env input vs k [] n t p))],
                    [(input, env.generate (llmCallOf env input vs k [] n t p))]),
                   ev1 ++ [Event.llmGenerate
                     (llmCallOf env input vs k [] n t p)]) := by
  refine ⟨rfl, fun vs ev1 h => ⟨?_, ?_⟩⟩
  · by_cases hn : 0 < n <;> simp [llmCallOf, hn]
  · simp [predict, h, get_knowledge_based_answer]

/-- Witness for C9: the concrete fresh-session call returns exactly one
turn. -/
theorem none_history_as_empty_witness :
    init_knowledge_vector_store env0 "ernie-tiny" "kb.txt"
      = .ok (vsA, evInitA)
    ∧ ((llmCallOf env0 "q1" vsA 6 [] 3 0.01 0.9).history = []
       ∧ predict env0 "q1" "ernie-tiny" fileA 6 3 0.01 0.9 none
           = .ok (("", [("q1", "demo-answer")], [("q1", "demo-answer")]),
                  evInitA ++ [Event.llmGenerate
                    (llmCallOf env0 "q1" vsA 6 [] 3 0.01 0.9)])) :=
  ⟨rfl, (none_history_as_empty env0 "q1" "ernie-tiny" fileA 6 3 0.01
    0.9).2 vsA evInitA rfl⟩

/-- Claim C10: every successful `predict` call returns the empty string as
its first output, the one wired to the question textbox — so the textbox is
cleared after every send, regardless of all inputs and history. -/
theorem predict_clears_textbox (env : Env) (input em : String)
    (fo : FileObj) (k n : Nat) (t p : Float) (h0 : Option History)
    (r : String × History × History) (ev : List Event)
    (hp : predict env input em fo k n t p h0 = .ok (r, ev)) :
    r.1 = "" := by
  unfold predict at hp
  cases hi : init_knowledge_vector_store env em fo.name with
  | error e => rw [hi] at hp; cases hp
  | ok x =>
      rw [hi] at hp
      obtain ⟨hr, -⟩ := Prod.mk.inj (Except.ok.inj hp)
      rw [← hr]

/-- Witness for C10 at the first concrete call. -/
theorem predict_clears_textbox_witness :
    predict env0 "q1" "ernie-tiny" fileA 6 3 0.01 0.9 none
      = .ok (outA.1, outA.2)
    ∧ outA.1.1 = "" :=
  ⟨rfl, predict_clears_textbox env0 "q1" "ernie-tiny" fileA 6 3 0.01 0.9
    none outA.1 outA.2 rfl⟩

end LangChainChatGLM
